import Mathlib

/-!
Shallow embedding of the `gemini-toolbox-backend` proxy server and proofs of
its admission-control and accounting properties.

The repository has two variants of the server:
* `src/server.js` ("V1"): one endpoint `/api/gemini-proxy`, rate limit max 5
  per minute, identity and quota checks inlined in the handler after the
  `apiLimiter` middleware.
* `src/unnamed/part_000` ("V2"): two endpoints `/api/gemini-proxy` and
  `/api/search-proxy`, rate limit max 10 per minute, identity and quota
  checks in a shared `usageAndAuthMiddleware` that runs after `apiLimiter`.

Machine-level JS maps become total functions with default 0 / `Option`;
request bodies become records of `Option` fields (JS `undefined`), and JS
truthiness of strings (`!s` true for `undefined` and `""`) is the `falsy`
predicate.  The behaviour of the upstream `fetch` for one admitted call is an
oracle parameter (`Upstream`), covering replies whose raw body may or may not
parse as JSON (`apiResponse.json()` throws on invalid JSON) and transport
failures (rejected promise, caught by the handler's `catch`).
-/

namespace GeminiToolbox

/-- An HTTP response body as sent by the server: either a JSON error object
`\x7b error: msg \x7d` or the parsed upstream data relayed to the client. -/
inductive RespBody where
  | errMsg (msg : String)
  | passthrough (data : String)
deriving DecidableEq, Repr

/-- An HTTP response: status code and body. -/
structure HttpResponse where
  status : Nat
  body : RespBody
deriving DecidableEq, Repr

/-- JS truthiness test for an optional string: `undefined` and `""` are falsy
(this is what `!userId`, `!searchPayload.query`, `!SEARCH_API_KEY` test). -/
def falsy : Option String → Bool
  | none => true
  | some s => s == ""

/-- `FREE_TRIAL_LIMIT` constant (both variants): max successful API calls per user. -/
def FREE_TRIAL_LIMIT : Nat := 20

/-- Rate-limit rejection message configured on `apiLimiter` (both variants). -/
def rateLimitMsg : String := "Too many requests, please try again after a minute."

/-- Quota-exhausted rejection message (both variants). -/
def quotaLimitMsg : String := "Free trial limit reached. Please add your own API key in the settings to continue."

/-- Missing-userId rejection message (both variants). -/
def missingUserMsg : String := "Missing user ID."

/-- Generic proxy-error message sent from the `catch` blocks (all handlers). -/
def proxyErrMsg : String := "An error occurred on the proxy server."

/-- Missing-search-query rejection message (search endpoint). -/
def missingQueryMsg : String := "Missing search query in request body"

/-- Server-configuration-error message (search endpoint). -/
def configErrMsg : String := "Server configuration error."

/-- One per-key entry of the rate limiter's store: start of the current
window (ms) and number of requests counted in it. -/
structure RateEntry where
  windowStart : Nat
  count : Nat
deriving DecidableEq, Repr

/-- The options object passed to `rateLimit(...)`: window length in ms, max
requests per window, rejection message, and the two header flags. -/
structure RateLimitConfig where
  windowMs : Nat
  maxReq : Nat
  message : RespBody
  standardHeaders : Bool
  legacyHeaders : Bool
deriving DecidableEq, Repr

/-- `apiLimiter` of `src/server.js`: 1 minute window, 5 requests per user. -/
def apiLimiterV1 : RateLimitConfig :=
  { windowMs := 1 * 60 * 1000
    maxReq := 5
    message := .errMsg rateLimitMsg
    standardHeaders := true
    legacyHeaders := false }

/-- `apiLimiter` of `src/unnamed/part_000`: 1 minute window, 10 requests per user. -/
def apiLimiterV2 : RateLimitConfig :=
  { windowMs := 1 * 60 * 1000
    maxReq := 10
    message := .errMsg rateLimitMsg
    standardHeaders := true
    legacyHeaders := false }

/-- The rate limiter's per-key store.  The key is
`keyGenerator = req.body.userId`, which is `undefined` when the body has no
userId, so keys are `Option String`. -/
def RateStore : Type := Option String → Option RateEntry

/-- Modelled from the spec: the fixed-window counter of the external
`express-rate-limit` middleware (its implementation is a third-party
dependency, not part of this repository), as described in section 4.1: look
up the entry for the key; if absent or the window has elapsed, reset it to
`windowStart := now, count := 0`; if `count` has reached the max, reject
(the window does not reset early); otherwise increment `count` and admit.
Returns the admission verdict and the updated store. -/
def rateCheck (cfg : RateLimitConfig) (store : RateStore) (key : Option String)
    (now : Nat) : Bool × RateStore :=
  let e : RateEntry :=
    match store key with
    | none => ⟨now, 0⟩
    | some e => if cfg.windowMs ≤ now - e.windowStart then ⟨now, 0⟩ else e
  if cfg.maxReq ≤ e.count then
    (false, fun k => if k = key then some e else store k)
  else
    (true, fun k => if k = key then some ⟨e.windowStart, e.count + 1⟩ else store k)

/-- Body of a `POST /api/gemini-proxy` request: `userId` and an opaque
`geminiPayload` forwarded verbatim. -/
structure GeminiReq where
  userId : Option String
  geminiPayload : Option String
deriving DecidableEq, Repr

/-- The `searchPayload` object of a search request: a query string and an
optional pagination start index. -/
structure SearchPayload where
  query : Option String
  startIndex : Option Nat
deriving DecidableEq, Repr

/-- Body of a `POST /api/search-proxy` request. -/
structure SearchReq where
  userId : Option String
  searchPayload : Option SearchPayload
deriving DecidableEq, Repr

/-- Environment configuration read at startup (each variable may be unset). -/
structure Env where
  GEMINI_API_KEY : Option String
  SEARCH_API_KEY : Option String
  CX_ID : Option String
deriving DecidableEq, Repr

/-- Behaviour of the upstream `fetch` for one dispatched call: either a reply
with an HTTP status and a raw body — `validJson` records whether
`apiResponse.json()` parses it or throws — or a transport-level failure
(network error, timeout, thrown exception) carrying some internal cause. -/
inductive Upstream where
  | reply (status : Nat) (validJson : Bool) (body : String)
  | transportFail (cause : String)
deriving DecidableEq, Repr

/-- The server's mutable state: the `usageTracker` object (JS
`usageTracker[u] || 0` makes it a total map with default 0) and the rate
limiter's store. -/
structure ServerState where
  usageTracker : String → Nat
  rateStore : RateStore

/-- Classification of how one request ended. -/
inductive Outcome where
  | rejected
  | relayedSuccess
  | relayedUpstreamError
  | transportError
deriving DecidableEq, Repr

/-- Result of processing one request: the HTTP response sent, the new server
state, whether the upstream `fetch` was dispatched, and the outcome class. -/
structure ReqOutcome where
  resp : HttpResponse
  state : ServerState
  calledUpstream : Bool
  outcome : Outcome

/-- The `/api/gemini-proxy` handler of `src/server.js` (V1), processing one
request arriving at time `now` (ms) with upstream behaviour `ub`.  The
`apiLimiter` middleware runs first; the handler then checks `userId`, then
the free-trial quota, then dispatches the upstream call; `data = await
apiResponse.json()` runs before the `ok` test, so an unparsable body lands in
the `catch` block; on `ok` the tracker is set to `userUsage + 1` (read before
dispatch) and the parsed data relayed; otherwise status and data are relayed. -/
def geminiProxyV1 (st : ServerState) (now : Nat) (req : GeminiReq)
    (ub : Upstream) : ReqOutcome :=
  let rc := rateCheck apiLimiterV1 st.rateStore req.userId now
  let st1 : ServerState := { st with rateStore := rc.2 }
  if rc.1 = false then
    ⟨⟨429, apiLimiterV1.message⟩, st1, false, .rejected⟩
  else if falsy req.userId then
    ⟨⟨400, .errMsg missingUserMsg⟩, st1, false, .rejected⟩
  else
    let userId := req.userId.getD ""
    let userUsage := st1.usageTracker userId
    if FREE_TRIAL_LIMIT ≤ userUsage then
      ⟨⟨429, .errMsg quotaLimitMsg⟩, st1, false, .rejected⟩
    else
      match ub with
      | .transportFail _ =>
        ⟨⟨500, .errMsg proxyErrMsg⟩, st1, true, .transportError⟩
      | .reply s valid body =>
        if valid = false then
          ⟨⟨500, .errMsg proxyErrMsg⟩, st1, true, .transportError⟩
        else if 200 ≤ s ∧ s < 300 then
          ⟨⟨200, .passthrough body⟩,
            { st1 with usageTracker :=
                fun k => if k = userId then userUsage + 1 else st1.usageTracker k },
            true, .relayedSuccess⟩
        else
          ⟨⟨s, .passthrough body⟩, st1, true, .relayedUpstreamError⟩

/-- Verdict of `usageAndAuthMiddleware` (V2): either an early response or a
pass with the `req.userUsage` value attached. -/
inductive Admission where
  | reject (resp : HttpResponse)
  | allow (userUsage : Nat)
deriving DecidableEq, Repr

/-- `usageAndAuthMiddleware` of `src/unnamed/part_000`: 400 when `userId` is
falsy, 429 when the tracked usage has reached `FREE_TRIAL_LIMIT`, otherwise
pass with `req.userUsage` set. -/
def usageAndAuthMiddleware (tracker : String → Nat) (userId : Option String) :
    Admission :=
  if falsy userId then .reject ⟨400, .errMsg missingUserMsg⟩
  else
    let uid := userId.getD ""
    let userUsage := tracker uid
    if FREE_TRIAL_LIMIT ≤ userUsage then .reject ⟨429, .errMsg quotaLimitMsg⟩
    else .allow userUsage

/-- The `/api/gemini-proxy` handler of `src/unnamed/part_000` (V2):
`apiLimiter` (max 10) then `usageAndAuthMiddleware`, then the same
fetch / parse / ok-test / increment-and-relay logic as V1.  Note that
`GEMINI_API_KEY` is only interpolated into the URL; the handler never tests
whether it is set before dispatching. -/
def geminiProxyV2 (_env : Env) (st : ServerState) (now : Nat) (req : GeminiReq)
    (ub : Upstream) : ReqOutcome :=
  let rc := rateCheck apiLimiterV2 st.rateStore req.userId now
  let st1 : ServerState := { st with rateStore := rc.2 }
  if rc.1 = false then
    ⟨⟨429, apiLimiterV2.message⟩, st1, false, .rejected⟩
  else
    match usageAndAuthMiddleware st1.usageTracker req.userId with
    | .reject r => ⟨r, st1, false, .rejected⟩
    | .allow userUsage =>
      let userId := req.userId.getD ""
      match ub with
      | .transportFail _ =>
        ⟨⟨500, .errMsg proxyErrMsg⟩, st1, true, .transportError⟩
      | .reply s valid body =>
        if valid = false then
          ⟨⟨500, .errMsg proxyErrMsg⟩, st1, true, .transportError⟩
        else if 200 ≤ s ∧ s < 300 then
          ⟨⟨200, .passthrough body⟩,
            { st1 with usageTracker :=
                fun k => if k = userId then userUsage + 1 else st1.usageTracker k },
            true, .relayedSuccess⟩
        else
          ⟨⟨s, .passthrough body⟩, st1, true, .relayedUpstreamError⟩

/-- JS test `!searchPayload || !searchPayload.query`. -/
def missingQuery : Option SearchPayload → Bool
  | none => true
  | some p => falsy p.query

/-- The `/api/search-proxy` handler of `src/unnamed/part_000` (V2):
`apiLimiter` (max 10) then `usageAndAuthMiddleware`; the handler then rejects
a missing/empty query with 400, rejects missing `SEARCH_API_KEY` or `CX_ID`
with a 500 configuration error before dispatching, and otherwise runs the
same fetch / parse / ok-test / increment-and-relay logic. -/
def searchProxy (env : Env) (st : ServerState) (now : Nat) (req : SearchReq)
    (ub : Upstream) : ReqOutcome :=
  let rc := rateCheck apiLimiterV2 st.rateStore req.userId now
  let st1 : ServerState := { st with rateStore := rc.2 }
  if rc.1 = false then
    ⟨⟨429, apiLimiterV2.message⟩, st1, false, .rejected⟩
  else
    match usageAndAuthMiddleware st1.usageTracker req.userId with
    | .reject r => ⟨r, st1, false, .rejected⟩
    | .allow userUsage =>
      let userId := req.userId.getD ""
      if missingQuery req.searchPayload then
        ⟨⟨400, .errMsg missingQueryMsg⟩, st1, false, .rejected⟩
      else if falsy env.SEARCH_API_KEY ∨ falsy env.CX_ID then
        ⟨⟨500, .errMsg configErrMsg⟩, st1, false, .rejected⟩
      else
        match ub with
        | .transportFail _ =>
          ⟨⟨500, .errMsg proxyErrMsg⟩, st1, true, .transportError⟩
        | .reply s valid body =>
          if valid = false then
            ⟨⟨500, .errMsg proxyErrMsg⟩, st1, true, .transportError⟩
          else if 200 ≤ s ∧ s < 300 then
            ⟨⟨200, .passthrough body⟩,
              { st1 with usageTracker :=
                  fun k => if k = userId then userUsage + 1 else st1.usageTracker k },
              true, .relayedSuccess⟩
          else
            ⟨⟨s, .passthrough body⟩, st1, true, .relayedUpstreamError⟩

/-- One inbound request to the V1 server (`src/server.js`): arrival time,
body, and the upstream behaviour the fetch would exhibit if dispatched. -/
structure GemEvent where
  now : Nat
  req : GeminiReq
  ub : Upstream
deriving DecidableEq, Repr

/-- Process one V1 event. -/
def stepV1 (st : ServerState) (e : GemEvent) : ReqOutcome :=
  geminiProxyV1 st e.now e.req e.ub

/-- Run the V1 server over a sequence of requests, returning the final state. -/
def runV1 (st : ServerState) : List GemEvent → ServerState
  | [] => st
  | e :: es => runV1 (stepV1 st e).state es

/-- One inbound request to the V2 server (`src/unnamed/part_000`), on either
of its two endpoints. -/
inductive EventV2 where
  | gem (now : Nat) (req : GeminiReq) (ub : Upstream)
  | search (now : Nat) (req : SearchReq) (ub : Upstream)
deriving DecidableEq, Repr

/-- The user key of a V2 event (`req.body.userId`). -/
def EventV2.key : EventV2 → Option String
  | .gem _ req _ => req.userId
  | .search _ req _ => req.userId

/-- The arrival time of a V2 event (ms). -/
def EventV2.time : EventV2 → Nat
  | .gem now _ _ => now
  | .search now _ _ => now

/-- Process one V2 event on the endpoint it addresses. -/
def stepV2 (env : Env) (st : ServerState) : EventV2 → ReqOutcome
  | .gem now req ub => geminiProxyV2 env st now req ub
  | .search now req ub => searchProxy env st now req ub

/-- Run the V2 server over a sequence of requests, returning the final state. -/
def runV2 (env : Env) (st : ServerState) : List EventV2 → ServerState
  | [] => st
  | e :: es => runV2 env (stepV2 env st e).state es

/-- Number of requests keyed by `k` in a V2 trace that end in the
Relayed-Success outcome (upstream 2xx relayed to the client). -/
def successCountV2 (env : Env) (st : ServerState) (k : String) :
    List EventV2 → Nat
  | [] => 0
  | e :: es =>
    (if e.key = some k ∧ (stepV2 env st e).outcome = .relayedSuccess then 1 else 0)
      + successCountV2 env (stepV2 env st e).state k es

/-- Number of requests keyed by `k` in a V1 trace that end in the
Relayed-Success outcome. -/
def successCountV1 (st : ServerState) (k : String) : List GemEvent → Nat
  | [] => 0
  | e :: es =>
    (if e.req.userId = some k ∧ (stepV1 st e).outcome = .relayedSuccess then 1 else 0)
      + successCountV1 (stepV1 st e).state k es

/-- Number of requests keyed by `κ` in a V1 trace that proceed to upstream
dispatch (the fetch is issued). -/
def admittedCountV1 (st : ServerState) (κ : Option String) :
    List GemEvent → Nat
  | [] => 0
  | e :: es =>
    (if e.req.userId = κ ∧ (stepV1 st e).calledUpstream then 1 else 0)
      + admittedCountV1 (stepV1 st e).state κ es

/-- Number of requests keyed by `κ` in a V2 trace (either endpoint) that
proceed to upstream dispatch. -/
def admittedCountV2 (env : Env) (st : ServerState) (κ : Option String) :
    List EventV2 → Nat
  | [] => 0
  | e :: es =>
    (if e.key = κ ∧ (stepV2 env st e).calledUpstream then 1 else 0)
      + admittedCountV2 env (stepV2 env st e).state κ es

/-- Server state at process start: empty `usageTracker`, empty rate store. -/
def initialState : ServerState :=
  { usageTracker := fun _ => 0, rateStore := fun _ => none }

/-- A fully configured environment, for concrete instantiations. -/
def env0 : Env := ⟨some "gk", some "sk", some "cx"⟩

/-- An environment in which `GEMINI_API_KEY` is unset. -/
def envNoGemini : Env := ⟨none, some "sk", some "cx"⟩

/-- An upstream that replies 200 with a JSON-parsable body. -/
def okReply : Upstream := .reply 200 true "ok"

/-- A gemini request carrying no `userId` at all (arrival time 0). -/
def noIdEvent : GemEvent := ⟨0, ⟨none, some "p"⟩, okReply⟩

/-- A gemini request from user `"u2"` arriving at time `t` ms. -/
def u2Event (t : Nat) : GemEvent := ⟨t, ⟨some "u2", some "p"⟩, okReply⟩

/-- A server state in which user `"u8"` has exhausted the free trial. -/
def st20u8 : ServerState :=
  { usageTracker := fun k => if k = "u8" then 20 else 0, rateStore := fun _ => none }

/-- A rate store holding a fresh window (count 0, start 0) for user `"u2"`. -/
def freshU2Store : RateStore :=
  fun k => if k = some "u2" then some ⟨0, 0⟩ else none

/-- A server state with an empty tracker and a fresh `"u2"` rate window. -/
def stFreshU2 : ServerState :=
  { usageTracker := fun _ => 0, rateStore := freshU2Store }

/-- An environment in which `SEARCH_API_KEY` is unset. -/
def envNoSearch : Env := ⟨some "gk", none, some "cx"⟩

/-- A server state in which user `"u2"` has a full rate window (count 5
begun at time 0). -/
def stFullU2 : ServerState :=
  { usageTracker := fun _ => 0
    rateStore := fun k => if k = some "u2" then some ⟨0, 5⟩ else none }

/-- A server state in which user `"u2"` has a full V2 rate window (count 10
begun at time 0). -/
def stFullV2U2 : ServerState :=
  { usageTracker := fun _ => 0
    rateStore := fun k => if k = some "u2" then some ⟨0, 10⟩ else none }

/-- A gemini request from the quota-exhausted user `"u8"` arriving at `t`. -/
def u8Event (t : Nat) : GemEvent := ⟨t, ⟨some "u8", some "p"⟩, okReply⟩

/-! ## Helper lemmas: per-step accounting -/

/-- One V1 step changes `usageTracker k` by exactly 1 on a Relayed-Success
for key `k` and leaves it unchanged otherwise. -/
theorem stepV1_usageTracker (st : ServerState) (e : GemEvent) (k : String) :
    (stepV1 st e).state.usageTracker k =
      st.usageTracker k +
        (if e.req.userId = some k ∧ (stepV1 st e).outcome = Outcome.relayedSuccess
          then 1 else 0) := by
  rcases e with ⟨now, ⟨uid?, pay⟩, ub⟩
  simp only [stepV1, geminiProxyV1]
  by_cases hrc : (rateCheck apiLimiterV1 st.rateStore uid? now).1 = false
  · simp [hrc]
  · rcases uid? with _ | u
    · simp [hrc, falsy]
    · by_cases hid : falsy (some u) = true
      · simp [hrc, hid]
      · by_cases hq : FREE_TRIAL_LIMIT ≤ st.usageTracker u
        · simp [hrc, hid, hq]
        · cases ub with
          | transportFail c => simp [hrc, hid, hq]
          | reply s valid body =>
            by_cases hv : valid = false
            · simp [hrc, hid, hq, hv]
            · by_cases hok : 200 ≤ s ∧ s < 300
              · by_cases hk : k = u
                · subst hk; simp [hrc, hid, hq, hv, hok]
                · simp [hrc, hid, hq, hv, hok, hk, Ne.symm hk]
              · simp [hrc, hid, hq, hv, hok]

/-- One V2 gemini step changes `usageTracker k` by exactly 1 on a
Relayed-Success for key `k` and leaves it unchanged otherwise. -/
theorem gemV2_usageTracker (env : Env) (st : ServerState) (now : Nat)
    (req : GeminiReq) (ub : Upstream) (k : String) :
    (geminiProxyV2 env st now req ub).state.usageTracker k =
      st.usageTracker k +
        (if req.userId = some k ∧
            (geminiProxyV2 env st now req ub).outcome = Outcome.relayedSuccess
          then 1 else 0) := by
  rcases req with ⟨uid?, pay⟩
  simp only [geminiProxyV2, usageAndAuthMiddleware]
  by_cases hrc : (rateCheck apiLimiterV2 st.rateStore uid? now).1 = false
  · simp [hrc]
  · rcases uid? with _ | u
    · simp [hrc, falsy]
    · by_cases hid : falsy (some u) = true
      · simp [hrc, hid]
      · by_cases hq : FREE_TRIAL_LIMIT ≤ st.usageTracker u
        · simp [hrc, hid, hq]
        · cases ub with
          | transportFail c => simp [hrc, hid, hq]
          | reply s valid body =>
            by_cases hv : valid = false
            · simp [hrc, hid, hq, hv]
            · by_cases hok : 200 ≤ s ∧ s < 300
              · by_cases hk : k = u
                · subst hk; simp [hrc, hid, hq, hv, hok]
                · simp [hrc, hid, hq, hv, hok, hk, Ne.symm hk]
              · simp [hrc, hid, hq, hv, hok]

/-- One V2 search step changes `usageTracker k` by exactly 1 on a
Relayed-Success for key `k` and leaves it unchanged otherwise. -/
theorem searchProxy_usageTracker (env : Env) (st : ServerState) (now : Nat)
    (req : SearchReq) (ub : Upstream) (k : String) :
    (searchProxy env st now req ub).state.usageTracker k =
      st.usageTracker k +
        (if req.userId = some k ∧
            (searchProxy env st now req ub).outcome = Outcome.relayedSuccess
          then 1 else 0) := by
  rcases req with ⟨uid?, sp⟩
  simp only [searchProxy, usageAndAuthMiddleware]
  by_cases hrc : (rateCheck apiLimiterV2 st.rateStore uid? now).1 = false
  · simp [hrc]
  · rcases uid? with _ | u
    · simp [hrc, falsy]
    · by_cases hid : falsy (some u) = true
      · simp [hrc, hid]
      · by_cases hq : FREE_TRIAL_LIMIT ≤ st.usageTracker u
        · simp [hrc, hid, hq]
        · by_cases hmq : missingQuery sp = true
          · simp [hrc, hid, hq, hmq]
          · by_cases hcfg : falsy env.SEARCH_API_KEY = true ∨ falsy env.CX_ID = true
            · simp [hrc, hid, hq, hmq, hcfg]
            · cases ub with
              | transportFail c => simp [hrc, hid, hq, hmq, hcfg]
              | reply s valid body =>
                by_cases hv : valid = false
                · simp [hrc, hid, hq, hmq, hcfg, hv]
                · by_cases hok : 200 ≤ s ∧ s < 300
                  · by_cases hk : k = u
                    · subst hk; simp [hrc, hid, hq, hmq, hcfg, hv, hok]
                    · simp [hrc, hid, hq, hmq, hcfg, hv, hok, hk, Ne.symm hk]
                  · simp [hrc, hid, hq, hmq, hcfg, hv, hok]

/-- One V2 step (either endpoint) changes `usageTracker k` by exactly 1 on a
Relayed-Success for key `k` and leaves it unchanged otherwise. -/
theorem stepV2_usageTracker (env : Env) (st : ServerState) (e : EventV2)
    (k : String) :
    (stepV2 env st e).state.usageTracker k =
      st.usageTracker k +
        (if e.key = some k ∧ (stepV2 env st e).outcome = Outcome.relayedSuccess
          then 1 else 0) := by
  cases e with
  | gem now req ub => exact gemV2_usageTracker env st now req ub k
  | search now req ub => exact searchProxy_usageTracker env st now req ub k

/-- Run-level accounting for V2: the tracker's final value is its initial
value plus the number of Relayed-Success outcomes for that key. -/
theorem runV2_usageTracker (env : Env) (k : String) :
    ∀ (es : List EventV2) (st : ServerState),
      (runV2 env st es).usageTracker k =
        st.usageTracker k + successCountV2 env st k es := by
  intro es
  induction es with
  | nil => intro st; simp [runV2, successCountV2]
  | cons e es ih =>
    intro st
    rw [runV2, successCountV2, ih, stepV2_usageTracker]
    omega

/-- Run-level accounting for V1. -/
theorem runV1_usageTracker (k : String) :
    ∀ (es : List GemEvent) (st : ServerState),
      (runV1 st es).usageTracker k =
        st.usageTracker k + successCountV1 st k es := by
  intro es
  induction es with
  | nil => intro st; simp [runV1, successCountV1]
  | cons e es ih =>
    intro st
    rw [runV1, successCountV1, ih, stepV1_usageTracker]
    omega

/-- C2: for every key k and every sequence of requests since process start,
`usageTracker k` equals exactly the number of requests for k that ended in a
Relayed-Success outcome — rejections, upstream errors and transport failures
never change it, and each success adds exactly 1 (shown for the V2 server,
over both its endpoints, and for the V1 server). -/
theorem usageTracker_counts_exactly_successes :
    (∀ (env : Env) (k : String) (es : List EventV2),
        (runV2 env initialState es).usageTracker k =
          successCountV2 env initialState k es) ∧
    (∀ (k : String) (es : List GemEvent),
        (runV1 initialState es).usageTracker k =
          successCountV1 initialState k es) := by
  constructor
  · intro env k es
    rw [runV2_usageTracker]
    simp [initialState]
  · intro k es
    rw [runV1_usageTracker]
    simp [initialState]

/-- The tracker never decreases across one V2 step. -/
theorem stepV2_usageTracker_mono (env : Env) (st : ServerState) (e : EventV2)
    (k : String) :
    st.usageTracker k ≤ (stepV2 env st e).state.usageTracker k := by
  rw [stepV2_usageTracker]
  exact Nat.le_add_right _ _

/-- The tracker never decreases across a V2 run. -/
theorem runV2_usageTracker_mono (env : Env) (k : String) :
    ∀ (es : List EventV2) (st : ServerState),
      st.usageTracker k ≤ (runV2 env st es).usageTracker k := by
  intro es
  induction es with
  | nil => intro st; simp [runV2]
  | cons e es ih =>
    intro st
    exact le_trans (stepV2_usageTracker_mono env st e k) (ih (stepV2 env st e).state)

/-- `usageAndAuthMiddleware` returns the quota-exhausted rejection whenever
the tracked usage of a (non-empty) user id has reached the limit. -/
theorem usageAndAuthMiddleware_quota (tracker : String → Nat) (k : String)
    (hk : ¬ k = "") (h : FREE_TRIAL_LIMIT ≤ tracker k) :
    usageAndAuthMiddleware tracker (some k)
      = Admission.reject ⟨429, RespBody.errMsg quotaLimitMsg⟩ := by
  simp [usageAndAuthMiddleware, falsy, hk, h]

/-- A V2 request keyed by a quota-exhausted user is never dispatched
upstream (it is stopped by the rate limiter or by the middleware). -/
theorem stepV2_quota_block (env : Env) (st : ServerState) (e : EventV2)
    (k : String) (hkey : e.key = some k)
    (h : FREE_TRIAL_LIMIT ≤ st.usageTracker k) :
    (stepV2 env st e).calledUpstream = false := by
  cases e with
  | gem now req ub =>
    rcases req with ⟨uid?, pay⟩
    simp only [EventV2.key] at hkey
    subst hkey
    by_cases hrc : (rateCheck apiLimiterV2 st.rateStore (some k) now).1 = false
    · simp [stepV2, geminiProxyV2, hrc]
    · by_cases hk : falsy (some k) = true
      · simp [stepV2, geminiProxyV2, usageAndAuthMiddleware, hrc, hk]
      · simp [stepV2, geminiProxyV2, usageAndAuthMiddleware, hrc, hk, h]
  | search now req ub =>
    rcases req with ⟨uid?, sp⟩
    simp only [EventV2.key] at hkey
    subst hkey
    by_cases hrc : (rateCheck apiLimiterV2 st.rateStore (some k) now).1 = false
    · simp [stepV2, searchProxy, hrc]
    · by_cases hk : falsy (some k) = true
      · simp [stepV2, searchProxy, usageAndAuthMiddleware, hrc, hk]
      · simp [stepV2, searchProxy, usageAndAuthMiddleware, hrc, hk, h]

/-- The tracker never decreases across one V1 step. -/
theorem stepV1_usageTracker_mono (st : ServerState) (e : GemEvent) (k : String) :
    st.usageTracker k ≤ (stepV1 st e).state.usageTracker k := by
  rw [stepV1_usageTracker]
  exact Nat.le_add_right _ _

/-- The tracker never decreases across a V1 run. -/
theorem runV1_usageTracker_mono (k : String) :
    ∀ (es : List GemEvent) (st : ServerState),
      st.usageTracker k ≤ (runV1 st es).usageTracker k := by
  intro es
  induction es with
  | nil => intro st; simp [runV1]
  | cons e es ih =>
    intro st
    exact le_trans (stepV1_usageTracker_mono st e k) (ih (stepV1 st e).state)

/-- A V1 request keyed by a quota-exhausted (non-empty) user is never
dispatched upstream, and whenever the rate limiter admits it, the inline
quota check answers the quota-exhausted 429. -/
theorem stepV1_quota_block (st : ServerState) (e : GemEvent) (k : String)
    (hkey : e.req.userId = some k) (hk : ¬ k = "")
    (h : FREE_TRIAL_LIMIT ≤ st.usageTracker k) :
    (stepV1 st e).calledUpstream = false ∧
    ((rateCheck apiLimiterV1 st.rateStore e.req.userId e.now).1 = true →
      (stepV1 st e).resp = ⟨429, RespBody.errMsg quotaLimitMsg⟩) := by
  rcases e with ⟨now, ⟨uid?, pay⟩, ub⟩
  replace hkey : uid? = some k := hkey
  subst hkey
  by_cases hrc : (rateCheck apiLimiterV1 st.rateStore (some k) now).1 = false
  · refine ⟨by simp [stepV1, geminiProxyV1, hrc], fun ht => absurd ht (by simp [hrc])⟩
  · constructor
    · simp [stepV1, geminiProxyV1, hrc, falsy, hk, h]
    · intro ht
      simp [stepV1, geminiProxyV1, hrc, falsy, hk, h]

/-- C3: once `usageTracker k` has reached `FREE_TRIAL_LIMIT` (20), it stays
exhausted until process restart: on the V2 server, after any further request
sequence `pre`, the admission middleware still answers the quota-exhausted
429 for k and the next request keyed k — whatever endpoint, payload, arrival
time or upstream behaviour — is never dispatched upstream; on the V1 server,
the next request keyed k after any further sequence is likewise never
dispatched, and whenever the rate limiter admits it the inline quota check
answers the quota-exhausted 429. -/
theorem quotaExhausted_permanent (k : String) (hk : ¬ k = "") :
    (∀ (env : Env) (st : ServerState),
        FREE_TRIAL_LIMIT ≤ st.usageTracker k →
        ∀ (pre : List EventV2) (e : EventV2), e.key = some k →
          usageAndAuthMiddleware (runV2 env st pre).usageTracker (some k)
              = Admission.reject ⟨429, RespBody.errMsg quotaLimitMsg⟩ ∧
          (stepV2 env (runV2 env st pre) e).calledUpstream = false) ∧
    (∀ (st : ServerState),
        FREE_TRIAL_LIMIT ≤ st.usageTracker k →
        ∀ (pre : List GemEvent) (e : GemEvent), e.req.userId = some k →
          (stepV1 (runV1 st pre) e).calledUpstream = false ∧
          ((rateCheck apiLimiterV1 (runV1 st pre).rateStore e.req.userId e.now).1 = true →
            (stepV1 (runV1 st pre) e).resp = ⟨429, RespBody.errMsg quotaLimitMsg⟩)) := by
  constructor
  · intro env st h pre e hkey
    have hmono : FREE_TRIAL_LIMIT ≤ (runV2 env st pre).usageTracker k :=
      le_trans h (runV2_usageTracker_mono env k pre st)
    exact ⟨usageAndAuthMiddleware_quota _ k hk hmono,
      stepV2_quota_block env _ e k hkey hmono⟩
  · intro st h pre e hkey
    have hmono : FREE_TRIAL_LIMIT ≤ (runV1 st pre).usageTracker k :=
      le_trans h (runV1_usageTracker_mono k pre st)
    exact stepV1_quota_block (runV1 st pre) e k hkey hk hmono

/-- Witness for C3 at concrete states and traces, on both variants. -/
theorem quotaExhausted_permanent_witness :
    (usageAndAuthMiddleware
        (runV2 env0 st20u8 [EventV2.gem 0 ⟨some "u8", some "p"⟩ okReply]).usageTracker
        (some "u8")
      = Admission.reject ⟨429, RespBody.errMsg quotaLimitMsg⟩ ∧
    (stepV2 env0 (runV2 env0 st20u8 [EventV2.gem 0 ⟨some "u8", some "p"⟩ okReply])
        (EventV2.search 5 ⟨some "u8", some ⟨some "cats", none⟩⟩ okReply)).calledUpstream
      = false) ∧
    ((stepV1 (runV1 st20u8 [u8Event 0]) (u8Event 5)).calledUpstream = false ∧
    ((rateCheck apiLimiterV1 (runV1 st20u8 [u8Event 0]).rateStore
          (u8Event 5).req.userId (u8Event 5).now).1 = true →
      (stepV1 (runV1 st20u8 [u8Event 0]) (u8Event 5)).resp
        = ⟨429, RespBody.errMsg quotaLimitMsg⟩)) :=
  ⟨(quotaExhausted_permanent "u8" (by decide)).1 env0 st20u8 (by decide)
      [EventV2.gem 0 ⟨some "u8", some "p"⟩ okReply]
      (EventV2.search 5 ⟨some "u8", some ⟨some "cats", none⟩⟩ okReply) (by decide),
    (quotaExhausted_permanent "u8" (by decide)).2 st20u8 (by decide)
      [u8Event 0] (u8Event 5) (by decide)⟩

/-- A V1 step leaves the rate store exactly as `rateCheck` updated it
(the rest of the handler only touches the tracker). -/
theorem stepV1_rateStore (st : ServerState) (e : GemEvent) :
    (stepV1 st e).state.rateStore
      = (rateCheck apiLimiterV1 st.rateStore e.req.userId e.now).2 := by
  rcases e with ⟨now, ⟨uid?, pay⟩, ub⟩
  simp only [stepV1, geminiProxyV1]
  repeat' split
  all_goals rfl

/-- `rateCheck` leaves entries of other keys untouched. -/
theorem rateCheck_other (cfg : RateLimitConfig) (store : RateStore)
    (key : Option String) (now : Nat) (k : Option String) (h : ¬ k = key) :
    (rateCheck cfg store key now).2 k = store k := by
  simp only [rateCheck]
  split <;> simp [h]

/-- `rateCheck` rejects when the key's entry is full and its window has not
elapsed, writing back the unchanged entry. -/
theorem rateCheck_reject (cfg : RateLimitConfig) (store : RateStore)
    (key : Option String) (now t0 c : Nat)
    (hstore : store key = some ⟨t0, c⟩) (hwin : now - t0 < cfg.windowMs)
    (hmax : cfg.maxReq ≤ c) :
    rateCheck cfg store key now
      = (false, fun k => if k = key then some ⟨t0, c⟩ else store k) := by
  simp [rateCheck, hstore, Nat.not_le.mpr hwin, hmax]

/-- `rateCheck` admits when the key's entry is below the max and its window
has not elapsed, incrementing the count. -/
theorem rateCheck_allow (cfg : RateLimitConfig) (store : RateStore)
    (key : Option String) (now t0 c : Nat)
    (hstore : store key = some ⟨t0, c⟩) (hwin : now - t0 < cfg.windowMs)
    (hmax : c < cfg.maxReq) :
    rateCheck cfg store key now
      = (true, fun k => if k = key then some ⟨t0, c + 1⟩ else store k) := by
  simp [rateCheck, hstore, Nat.not_le.mpr hwin, Nat.not_le.mpr hmax]

/-- When the rate limiter rejects, the V1 handler answers 429 with the
configured message and the upstream is not called. -/
theorem stepV1_rate_rejected (st : ServerState) (e : GemEvent)
    (h : (rateCheck apiLimiterV1 st.rateStore e.req.userId e.now).1 = false) :
    (stepV1 st e).resp = ⟨429, RespBody.errMsg rateLimitMsg⟩ ∧
    (stepV1 st e).calledUpstream = false := by
  rcases e with ⟨now, ⟨uid?, pay⟩, ub⟩
  simp only [stepV1, geminiProxyV1] at h ⊢
  rw [if_pos h]
  exact ⟨rfl, rfl⟩

/-- When the rate limiter admits, the V1 handler's `calledUpstream` flag can
be true; when it rejects, the flag is false. -/
theorem stepV1_called_rate (st : ServerState) (e : GemEvent)
    (h : (stepV1 st e).calledUpstream = true) :
    (rateCheck apiLimiterV1 st.rateStore e.req.userId e.now).1 = true := by
  by_cases hrc : (rateCheck apiLimiterV1 st.rateStore e.req.userId e.now).1 = false
  · exact absurd h (by simp [(stepV1_rate_rejected st e hrc).2])
  · exact eq_true_of_ne_false hrc

/-- Window-bound invariant for V1: starting from an entry `⟨t0, c⟩` for key
`κ` with `c` at most the max, if every request keyed `κ` in the trace falls
inside the window begun at `t0`, then the entry's window start never moves,
its count stays at most the max, and the number of requests keyed `κ`
dispatched upstream is at most `max - c`. -/
theorem rate_window_boundV1 :
    ∀ (es : List GemEvent) (st : ServerState) (κ : Option String) (t0 c : Nat),
      st.rateStore κ = some ⟨t0, c⟩ →
      c ≤ apiLimiterV1.maxReq →
      (∀ e ∈ es, e.req.userId = κ → e.now - t0 < apiLimiterV1.windowMs) →
      ∃ c', c' ≤ apiLimiterV1.maxReq ∧
        (runV1 st es).rateStore κ = some ⟨t0, c'⟩ ∧
        admittedCountV1 st κ es + c ≤ c' := by
  intro es
  induction es with
  | nil =>
    intro st κ t0 c hstore hc _
    exact ⟨c, hc, by simpa [runV1] using hstore, by simp [admittedCountV1]⟩
  | cons e es ih =>
    intro st κ t0 c hstore hc hwin
    by_cases hkey : e.req.userId = κ
    · have hw : e.now - t0 < apiLimiterV1.windowMs :=
        hwin e (List.mem_cons_self e es) hkey
      by_cases hfull : apiLimiterV1.maxReq ≤ c
      · -- entry full: this request is rate-rejected, entry unchanged
        have hrc : rateCheck apiLimiterV1 st.rateStore e.req.userId e.now
            = (false, fun k => if k = κ then some ⟨t0, c⟩ else st.rateStore k) := by
          rw [hkey]
          exact rateCheck_reject _ _ _ _ _ _ hstore hw hfull
        have hcalled : (stepV1 st e).calledUpstream = false :=
          (stepV1_rate_rejected st e (by rw [hrc])).2
        have hstore' : (stepV1 st e).state.rateStore κ = some ⟨t0, c⟩ := by
          rw [stepV1_rateStore, hrc]
          simp
        obtain ⟨c', h1, h2, h3⟩ := ih (stepV1 st e).state κ t0 c hstore' hc
          (fun e' he' => hwin e' (List.mem_cons_of_mem _ he'))
        refine ⟨c', h1, by simpa [runV1] using h2, ?_⟩
        rw [admittedCountV1]
        simp only [hcalled]
        simpa using h3
      · -- entry below max: the rate check admits and increments the count
        have hlt : c < apiLimiterV1.maxReq := Nat.lt_of_not_le hfull
        have hrc : rateCheck apiLimiterV1 st.rateStore e.req.userId e.now
            = (true, fun k => if k = κ then some ⟨t0, c + 1⟩ else st.rateStore k) := by
          rw [hkey]
          exact rateCheck_allow _ _ _ _ _ _ hstore hw hlt
        have hstore' : (stepV1 st e).state.rateStore κ = some ⟨t0, c + 1⟩ := by
          rw [stepV1_rateStore, hrc]
          simp
        obtain ⟨c', h1, h2, h3⟩ := ih (stepV1 st e).state κ t0 (c + 1) hstore' hlt
          (fun e' he' => hwin e' (List.mem_cons_of_mem _ he'))
        refine ⟨c', h1, by simpa [runV1] using h2, ?_⟩
        rw [admittedCountV1]
        have hb : (if e.req.userId = κ ∧ (stepV1 st e).calledUpstream then 1 else 0) ≤ 1 := by
          split <;> simp
        omega
    · -- request for another key: κ's entry is untouched
      have hstore' : (stepV1 st e).state.rateStore κ = some ⟨t0, c⟩ := by
        rw [stepV1_rateStore, rateCheck_other _ _ _ _ _ (fun hh => hkey hh.symm)]
        exact hstore
      obtain ⟨c', h1, h2, h3⟩ := ih (stepV1 st e).state κ t0 c hstore' hc
        (fun e' he' => hwin e' (List.mem_cons_of_mem _ he'))
      refine ⟨c', h1, by simpa [runV1] using h2, ?_⟩
      rw [admittedCountV1]
      simp only [hkey]
      simpa using h3

/-- A V2 step (either endpoint) leaves the rate store exactly as
`rateCheck` updated it. -/
theorem stepV2_rateStore (env : Env) (st : ServerState) (e : EventV2) :
    (stepV2 env st e).state.rateStore
      = (rateCheck apiLimiterV2 st.rateStore e.key e.time).2 := by
  cases e with
  | gem now req ub =>
    rcases req with ⟨uid?, pay⟩
    simp only [stepV2, geminiProxyV2, EventV2.key, EventV2.time]
    repeat' split
    all_goals rfl
  | search now req ub =>
    rcases req with ⟨uid?, sp⟩
    simp only [stepV2, searchProxy, EventV2.key, EventV2.time]
    repeat' split
    all_goals rfl

/-- When the rate limiter rejects, each V2 handler answers 429 with the
configured message and the upstream is not called. -/
theorem stepV2_rate_rejected (env : Env) (st : ServerState) (e : EventV2)
    (h : (rateCheck apiLimiterV2 st.rateStore e.key e.time).1 = false) :
    (stepV2 env st e).resp = ⟨429, RespBody.errMsg rateLimitMsg⟩ ∧
    (stepV2 env st e).calledUpstream = false := by
  cases e with
  | gem now req ub =>
    simp only [EventV2.key, EventV2.time] at h
    simp only [stepV2, geminiProxyV2]
    rw [if_pos h]
    exact ⟨rfl, rfl⟩
  | search now req ub =>
    simp only [EventV2.key, EventV2.time] at h
    simp only [stepV2, searchProxy]
    rw [if_pos h]
    exact ⟨rfl, rfl⟩

/-- Window-bound invariant for V2, over both endpoints: starting from an
entry `⟨t0, c⟩` for key `κ` with `c` at most the max, if every request keyed
`κ` in the trace falls inside the window begun at `t0`, then the entry's
window start never moves, its count stays at most the max, and the number of
requests keyed `κ` dispatched upstream is at most `max - c`. -/
theorem rate_window_boundV2 (env : Env) :
    ∀ (es : List EventV2) (st : ServerState) (κ : Option String) (t0 c : Nat),
      st.rateStore κ = some ⟨t0, c⟩ →
      c ≤ apiLimiterV2.maxReq →
      (∀ e ∈ es, e.key = κ → e.time - t0 < apiLimiterV2.windowMs) →
      ∃ c', c' ≤ apiLimiterV2.maxReq ∧
        (runV2 env st es).rateStore κ = some ⟨t0, c'⟩ ∧
        admittedCountV2 env st κ es + c ≤ c' := by
  intro es
  induction es with
  | nil =>
    intro st κ t0 c hstore hc _
    exact ⟨c, hc, by simpa [runV2] using hstore, by simp [admittedCountV2]⟩
  | cons e es ih =>
    intro st κ t0 c hstore hc hwin
    by_cases hkey : e.key = κ
    · have hw : e.time - t0 < apiLimiterV2.windowMs :=
        hwin e (List.mem_cons_self e es) hkey
      by_cases hfull : apiLimiterV2.maxReq ≤ c
      · -- entry full: this request is rate-rejected, entry unchanged
        have hrc : rateCheck apiLimiterV2 st.rateStore e.key e.time
            = (false, fun k => if k = κ then some ⟨t0, c⟩ else st.rateStore k) := by
          rw [hkey]
          exact rateCheck_reject _ _ _ _ _ _ hstore hw hfull
        have hcalled : (stepV2 env st e).calledUpstream = false :=
          (stepV2_rate_rejected env st e (by rw [hrc])).2
        have hstore' : (stepV2 env st e).state.rateStore κ = some ⟨t0, c⟩ := by
          rw [stepV2_rateStore, hrc]
          simp
        obtain ⟨c', h1, h2, h3⟩ := ih (stepV2 env st e).state κ t0 c hstore' hc
          (fun e' he' => hwin e' (List.mem_cons_of_mem _ he'))
        refine ⟨c', h1, by simpa [runV2] using h2, ?_⟩
        rw [admittedCountV2]
        simp only [hcalled]
        simpa using h3
      · -- entry below max: the rate check admits and increments the count
        have hlt : c < apiLimiterV2.maxReq := Nat.lt_of_not_le hfull
        have hrc : rateCheck apiLimiterV2 st.rateStore e.key e.time
            = (true, fun k => if k = κ then some ⟨t0, c + 1⟩ else st.rateStore k) := by
          rw [hkey]
          exact rateCheck_allow _ _ _ _ _ _ hstore hw hlt
        have hstore' : (stepV2 env st e).state.rateStore κ = some ⟨t0, c + 1⟩ := by
          rw [stepV2_rateStore, hrc]
          simp
        obtain ⟨c', h1, h2, h3⟩ := ih (stepV2 env st e).state κ t0 (c + 1) hstore' hlt
          (fun e' he' => hwin e' (List.mem_cons_of_mem _ he'))
        refine ⟨c', h1, by simpa [runV2] using h2, ?_⟩
        rw [admittedCountV2]
        have hb : (if e.key = κ ∧ (stepV2 env st e).calledUpstream then 1 else 0) ≤ 1 := by
          split <;> simp
        omega
    · -- request for another key: κ's entry is untouched
      have hstore' : (stepV2 env st e).state.rateStore κ = some ⟨t0, c⟩ := by
        rw [stepV2_rateStore, rateCheck_other _ _ _ _ _ (fun hh => hkey hh.symm)]
        exact hstore
      obtain ⟨c', h1, h2, h3⟩ := ih (stepV2 env st e).state κ t0 c hstore' hc
        (fun e' he' => hwin e' (List.mem_cons_of_mem _ he'))
      refine ⟨c', h1, by simpa [runV2] using h2, ?_⟩
      rw [admittedCountV2]
      simp only [hkey]
      simpa using h3

/-- C4: for every key and every window of the configured duration, at most
`maxPerWindow` requests with that key proceed to upstream dispatch (5 in
`src/server.js`, 10 in `src/unnamed/part_000` across both its endpoints);
and on either variant a request arriving while the key's window entry is
already full is answered 429 with the rate-limit message and never reaches
the upstream caller. -/
theorem rate_limit_bounds_dispatch :
    (∀ (st : ServerState) (κ : Option String) (t0 : Nat) (es : List GemEvent),
        st.rateStore κ = some ⟨t0, 0⟩ →
        (∀ e ∈ es, e.req.userId = κ → e.now - t0 < apiLimiterV1.windowMs) →
        admittedCountV1 st κ es ≤ apiLimiterV1.maxReq) ∧
    (∀ (st : ServerState) (e : GemEvent) (t0 c : Nat),
        st.rateStore e.req.userId = some ⟨t0, c⟩ →
        e.now - t0 < apiLimiterV1.windowMs →
        apiLimiterV1.maxReq ≤ c →
        (stepV1 st e).resp = ⟨429, RespBody.errMsg rateLimitMsg⟩ ∧
        (stepV1 st e).calledUpstream = false) ∧
    (∀ (env : Env) (st : ServerState) (κ : Option String) (t0 : Nat)
        (es : List EventV2),
        st.rateStore κ = some ⟨t0, 0⟩ →
        (∀ e ∈ es, e.key = κ → e.time - t0 < apiLimiterV2.windowMs) →
        admittedCountV2 env st κ es ≤ apiLimiterV2.maxReq) ∧
    (∀ (env : Env) (st : ServerState) (e : EventV2) (t0 c : Nat),
        st.rateStore e.key = some ⟨t0, c⟩ →
        e.time - t0 < apiLimiterV2.windowMs →
        apiLimiterV2.maxReq ≤ c →
        (stepV2 env st e).resp = ⟨429, RespBody.errMsg rateLimitMsg⟩ ∧
        (stepV2 env st e).calledUpstream = false) := by
  refine ⟨?_, ?_, ?_, ?_⟩
  · intro st κ t0 es hstore hwin
    obtain ⟨c', h1, _, h3⟩ :=
      rate_window_boundV1 es st κ t0 0 hstore (Nat.zero_le _) hwin
    omega
  · intro st e t0 c hstore hwin hmax
    exact stepV1_rate_rejected st e
      (by rw [rateCheck_reject _ _ _ _ _ _ hstore hwin hmax])
  · intro env st κ t0 es hstore hwin
    obtain ⟨c', h1, _, h3⟩ :=
      rate_window_boundV2 env es st κ t0 0 hstore (Nat.zero_le _) hwin
    omega
  · intro env st e t0 c hstore hwin hmax
    exact stepV2_rate_rejected env st e
      (by rw [rateCheck_reject _ _ _ _ _ _ hstore hwin hmax])

/-- Witness for C4: user `"u2"` sends 6 requests within 10 seconds against
the V1 5-per-minute limiter; at most 5 are dispatched, and the 6th is
answered 429 with the rate-limit message without reaching the upstream.
On V2, a mixed gemini/search trace from a fresh window dispatches at most
10, and a request arriving on a full window is answered 429 undispatched. -/
theorem rate_limit_bounds_dispatch_witness :
    (admittedCountV1 stFreshU2 (some "u2")
        [u2Event 0, u2Event 2000, u2Event 4000, u2Event 6000, u2Event 8000,
          u2Event 10000]
      ≤ apiLimiterV1.maxReq) ∧
    ((stepV1 (runV1 stFreshU2
          [u2Event 0, u2Event 2000, u2Event 4000, u2Event 6000, u2Event 8000])
        (u2Event 10000)).resp = ⟨429, RespBody.errMsg rateLimitMsg⟩ ∧
    (stepV1 (runV1 stFreshU2
          [u2Event 0, u2Event 2000, u2Event 4000, u2Event 6000, u2Event 8000])
        (u2Event 10000)).calledUpstream = false) ∧
    (admittedCountV2 env0 stFreshU2 (some "u2")
        [EventV2.gem 0 ⟨some "u2", some "p"⟩ okReply,
          EventV2.search 1000 ⟨some "u2", some ⟨some "cats", none⟩⟩ okReply,
          EventV2.gem 2000 ⟨some "u2", some "p"⟩ okReply,
          EventV2.search 3000 ⟨some "u2", some ⟨some "cats", none⟩⟩ okReply,
          EventV2.gem 4000 ⟨some "u2", some "p"⟩ okReply,
          EventV2.search 5000 ⟨some "u2", some ⟨some "cats", none⟩⟩ okReply,
          EventV2.gem 6000 ⟨some "u2", some "p"⟩ okReply,
          EventV2.search 7000 ⟨some "u2", some ⟨some "cats", none⟩⟩ okReply,
          EventV2.gem 8000 ⟨some "u2", some "p"⟩ okReply,
          EventV2.search 9000 ⟨some "u2", some ⟨some "cats", none⟩⟩ okReply,
          EventV2.gem 10000 ⟨some "u2", some "p"⟩ okReply]
      ≤ apiLimiterV2.maxReq) ∧
    ((stepV2 env0 stFullV2U2 (EventV2.gem 1000 ⟨some "u2", some "p"⟩ okReply)).resp
        = ⟨429, RespBody.errMsg rateLimitMsg⟩ ∧
    (stepV2 env0 stFullV2U2
        (EventV2.gem 1000 ⟨some "u2", some "p"⟩ okReply)).calledUpstream = false) :=
  ⟨rate_limit_bounds_dispatch.1 stFreshU2 (some "u2") 0
      [u2Event 0, u2Event 2000, u2Event 4000, u2Event 6000, u2Event 8000,
        u2Event 10000]
      (by decide) (by decide),
    rate_limit_bounds_dispatch.2.1
      (runV1 stFreshU2
        [u2Event 0, u2Event 2000, u2Event 4000, u2Event 6000, u2Event 8000])
      (u2Event 10000) 0 5 (by decide) (by decide) (by decide),
    rate_limit_bounds_dispatch.2.2.1 env0 stFreshU2 (some "u2") 0
      [EventV2.gem 0 ⟨some "u2", some "p"⟩ okReply,
        EventV2.search 1000 ⟨some "u2", some ⟨some "cats", none⟩⟩ okReply,
        EventV2.gem 2000 ⟨some "u2", some "p"⟩ okReply,
        EventV2.search 3000 ⟨some "u2", some ⟨some "cats", none⟩⟩ okReply,
        EventV2.gem 4000 ⟨some "u2", some "p"⟩ okReply,
        EventV2.search 5000 ⟨some "u2", some ⟨some "cats", none⟩⟩ okReply,
        EventV2.gem 6000 ⟨some "u2", some "p"⟩ okReply,
        EventV2.search 7000 ⟨some "u2", some ⟨some "cats", none⟩⟩ okReply,
        EventV2.gem 8000 ⟨some "u2", some "p"⟩ okReply,
        EventV2.search 9000 ⟨some "u2", some ⟨some "cats", none⟩⟩ okReply,
        EventV2.gem 10000 ⟨some "u2", some "p"⟩ okReply]
      (by decide) (by decide),
    rate_limit_bounds_dispatch.2.2.2 env0 stFullV2U2
      (EventV2.gem 1000 ⟨some "u2", some "p"⟩ okReply) 0 10
      (by decide) (by decide) (by decide)⟩

/-- Counterexample to C1 as stated: the 6th consecutive request with an
absent userId is answered 429 by the rate limiter (which runs first and keys
the missing id), not 400 — so identity presence is not checked ahead of the
rate window. -/
theorem missingId_first_counterexample :
    noIdEvent.req.userId = none ∧
    (stepV1 (runV1 initialState
          [noIdEvent, noIdEvent, noIdEvent, noIdEvent, noIdEvent])
        noIdEvent).resp = ⟨429, RespBody.errMsg rateLimitMsg⟩ ∧
    (stepV1 (runV1 initialState
          [noIdEvent, noIdEvent, noIdEvent, noIdEvent, noIdEvent])
        noIdEvent).resp.status ≠ 400 := by
  decide

/-- C1 (amended): on every endpoint of both variants, a request with absent
or empty userId is never dispatched upstream and never touches the tracker;
it is answered 400 before the quota check whenever the rate-window
middleware (which runs first) admits it, and 429 with the rate-limit message
when that middleware rejects it. -/
theorem missingId_rejected_before_quota :
    (∀ (st : ServerState) (e : GemEvent), falsy e.req.userId = true →
        (stepV1 st e).calledUpstream = false ∧
        (stepV1 st e).state.usageTracker = st.usageTracker ∧
        ((rateCheck apiLimiterV1 st.rateStore e.req.userId e.now).1 = true →
          (stepV1 st e).resp = ⟨400, RespBody.errMsg missingUserMsg⟩) ∧
        ((rateCheck apiLimiterV1 st.rateStore e.req.userId e.now).1 = false →
          (stepV1 st e).resp = ⟨429, RespBody.errMsg rateLimitMsg⟩)) ∧
    (∀ (env : Env) (st : ServerState) (now : Nat) (req : GeminiReq) (ub : Upstream),
        falsy req.userId = true →
        (geminiProxyV2 env st now req ub).calledUpstream = false ∧
        (geminiProxyV2 env st now req ub).state.usageTracker = st.usageTracker ∧
        ((rateCheck apiLimiterV2 st.rateStore req.userId now).1 = true →
          (geminiProxyV2 env st now req ub).resp = ⟨400, RespBody.errMsg missingUserMsg⟩) ∧
        ((rateCheck apiLimiterV2 st.rateStore req.userId now).1 = false →
          (geminiProxyV2 env st now req ub).resp = ⟨429, RespBody.errMsg rateLimitMsg⟩)) ∧
    (∀ (env : Env) (st : ServerState) (now : Nat) (req : SearchReq) (ub : Upstream),
        falsy req.userId = true →
        (searchProxy env st now req ub).calledUpstream = false ∧
        (searchProxy env st now req ub).state.usageTracker = st.usageTracker ∧
        ((rateCheck apiLimiterV2 st.rateStore req.userId now).1 = true →
          (searchProxy env st now req ub).resp = ⟨400, RespBody.errMsg missingUserMsg⟩) ∧
        ((rateCheck apiLimiterV2 st.rateStore req.userId now).1 = false →
          (searchProxy env st now req ub).resp = ⟨429, RespBody.errMsg rateLimitMsg⟩)) := by
  refine ⟨?_, ?_, ?_⟩
  · intro st e hf
    rcases e with ⟨now, ⟨uid?, pay⟩, ub⟩
    simp only [stepV1, geminiProxyV1]
    by_cases hrc : (rateCheck apiLimiterV1 st.rateStore uid? now).1 = false
    · rw [if_pos hrc]
      exact ⟨rfl, rfl, fun ht => absurd hrc (by simp [ht]), fun _ => rfl⟩
    · rw [if_neg hrc, if_pos hf]
      exact ⟨rfl, rfl, fun _ => rfl, fun hfalse => absurd hfalse hrc⟩
  · intro env st now req ub hf
    rcases req with ⟨uid?, pay⟩
    simp only [geminiProxyV2]
    by_cases hrc : (rateCheck apiLimiterV2 st.rateStore uid? now).1 = false
    · rw [if_pos hrc]
      exact ⟨rfl, rfl, fun ht => absurd hrc (by simp [ht]), fun _ => rfl⟩
    · rw [if_neg hrc]
      simp only [usageAndAuthMiddleware]
      rw [if_pos hf]
      exact ⟨rfl, rfl, fun _ => rfl, fun hfalse => absurd hfalse hrc⟩
  · intro env st now req ub hf
    rcases req with ⟨uid?, sp⟩
    simp only [searchProxy]
    by_cases hrc : (rateCheck apiLimiterV2 st.rateStore uid? now).1 = false
    · rw [if_pos hrc]
      exact ⟨rfl, rfl, fun ht => absurd hrc (by simp [ht]), fun _ => rfl⟩
    · rw [if_neg hrc]
      simp only [usageAndAuthMiddleware]
      rw [if_pos hf]
      exact ⟨rfl, rfl, fun _ => rfl, fun hfalse => absurd hfalse hrc⟩

/-- Witness for the amended C1 at a concrete missing-id request. -/
theorem missingId_rejected_before_quota_witness :
    (stepV1 initialState noIdEvent).calledUpstream = false ∧
    (stepV1 initialState noIdEvent).state.usageTracker = initialState.usageTracker ∧
    ((rateCheck apiLimiterV1 initialState.rateStore noIdEvent.req.userId
          noIdEvent.now).1 = true →
      (stepV1 initialState noIdEvent).resp = ⟨400, RespBody.errMsg missingUserMsg⟩) ∧
    ((rateCheck apiLimiterV1 initialState.rateStore noIdEvent.req.userId
          noIdEvent.now).1 = false →
      (stepV1 initialState noIdEvent).resp = ⟨429, RespBody.errMsg rateLimitMsg⟩) :=
  missingId_rejected_before_quota.1 initialState noIdEvent (by decide)

/-- `usageAndAuthMiddleware` passes a request whose user id is truthy and
whose tracked usage is below the limit, attaching the current usage. -/
theorem usageAndAuthMiddleware_allow (tracker : String → Nat)
    (uid? : Option String) (hid : falsy uid? = false)
    (hq : tracker (uid?.getD "") < FREE_TRIAL_LIMIT) :
    usageAndAuthMiddleware tracker uid?
      = Admission.allow (tracker (uid?.getD "")) := by
  simp [usageAndAuthMiddleware, hid, Nat.not_le.mpr hq]

/-- Counterexample to C5 as stated: an admitted request whose upstream
replies 404 with a body that does not parse as JSON is answered with the
generic 500, not with the upstream's status and body (`apiResponse.json()`
throws before the ok-test). -/
theorem relaysUpstreamError_counterexample :
    (geminiProxyV1 initialState 0 ⟨some "u", some "p"⟩
        (Upstream.reply 404 false "<html>")).resp
      = ⟨500, RespBody.errMsg proxyErrMsg⟩ ∧
    ¬ (geminiProxyV1 initialState 0 ⟨some "u", some "p"⟩
        (Upstream.reply 404 false "<html>")).resp
      = ⟨404, RespBody.passthrough "<html>"⟩ := by
  decide

/-- C5 (amended): for every admitted request whose upstream call returns a
non-2xx status with a body that parses as JSON, each handler relays the
upstream's exact status code and parsed body and leaves the quota ledger
untouched. -/
theorem relaysUpstreamError :
    (∀ (st : ServerState) (now : Nat) (req : GeminiReq) (s : Nat) (b : String),
        (rateCheck apiLimiterV1 st.rateStore req.userId now).1 = true →
        falsy req.userId = false →
        st.usageTracker (req.userId.getD "") < FREE_TRIAL_LIMIT →
        ¬(200 ≤ s ∧ s < 300) →
        (geminiProxyV1 st now req (Upstream.reply s true b)).resp
            = ⟨s, RespBody.passthrough b⟩ ∧
        (geminiProxyV1 st now req (Upstream.reply s true b)).state.usageTracker
            = st.usageTracker) ∧
    (∀ (env : Env) (st : ServerState) (now : Nat) (req : GeminiReq) (s : Nat) (b : String),
        (rateCheck apiLimiterV2 st.rateStore req.userId now).1 = true →
        falsy req.userId = false →
        st.usageTracker (req.userId.getD "") < FREE_TRIAL_LIMIT →
        ¬(200 ≤ s ∧ s < 300) →
        (geminiProxyV2 env st now req (Upstream.reply s true b)).resp
            = ⟨s, RespBody.passthrough b⟩ ∧
        (geminiProxyV2 env st now req (Upstream.reply s true b)).state.usageTracker
            = st.usageTracker) ∧
    (∀ (env : Env) (st : ServerState) (now : Nat) (req : SearchReq) (s : Nat) (b : String),
        (rateCheck apiLimiterV2 st.rateStore req.userId now).1 = true →
        falsy req.userId = false →
        st.usageTracker (req.userId.getD "") < FREE_TRIAL_LIMIT →
        missingQuery req.searchPayload = false →
        falsy env.SEARCH_API_KEY = false → falsy env.CX_ID = false →
        ¬(200 ≤ s ∧ s < 300) →
        (searchProxy env st now req (Upstream.reply s true b)).resp
            = ⟨s, RespBody.passthrough b⟩ ∧
        (searchProxy env st now req (Upstream.reply s true b)).state.usageTracker
            = st.usageTracker) := by
  refine ⟨?_, ?_, ?_⟩
  · intro st now req s b hrc hid hq hok
    rcases req with ⟨uid?, pay⟩
    simp [geminiProxyV1, hrc, hid, Nat.not_le.mpr hq, hok]
  · intro env st now req s b hrc hid hq hok
    rcases req with ⟨uid?, pay⟩
    simp [geminiProxyV2, usageAndAuthMiddleware_allow _ _ hid hq, hrc, hok]
  · intro env st now req s b hrc hid hq hquery hcfg1 hcfg2 hok
    rcases req with ⟨uid?, sp⟩
    simp [searchProxy, usageAndAuthMiddleware_allow _ _ hid hq, hrc, hquery,
      hcfg1, hcfg2, hok]

/-- Witness for the amended C5: an admitted request whose upstream replies
429 with a JSON body has that status and body relayed, tracker unchanged. -/
theorem relaysUpstreamError_witness :
    (geminiProxyV1 initialState 0 ⟨some "u", some "p"⟩
        (Upstream.reply 429 true "quota")).resp
      = ⟨429, RespBody.passthrough "quota"⟩ ∧
    (geminiProxyV1 initialState 0 ⟨some "u", some "p"⟩
        (Upstream.reply 429 true "quota")).state.usageTracker
      = initialState.usageTracker :=
  relaysUpstreamError.1 initialState 0 ⟨some "u", some "p"⟩ 429 "quota"
    (by decide) (by decide) (by decide) (by decide)

/-- C6: for every admitted request whose upstream call fails at the
transport level — whatever the internal cause — each handler answers 500
with the fixed generic message (no detail from the cause appears in the
response) and leaves the quota ledger untouched. -/
theorem transportError_generic500 :
    (∀ (st : ServerState) (now : Nat) (req : GeminiReq) (cause : String),
        (rateCheck apiLimiterV1 st.rateStore req.userId now).1 = true →
        falsy req.userId = false →
        st.usageTracker (req.userId.getD "") < FREE_TRIAL_LIMIT →
        (geminiProxyV1 st now req (Upstream.transportFail cause)).resp
            = ⟨500, RespBody.errMsg proxyErrMsg⟩ ∧
        (geminiProxyV1 st now req (Upstream.transportFail cause)).state.usageTracker
            = st.usageTracker ∧
        (geminiProxyV1 st now req (Upstream.transportFail cause)).calledUpstream
            = true) ∧
    (∀ (env : Env) (st : ServerState) (now : Nat) (req : GeminiReq) (cause : String),
        (rateCheck apiLimiterV2 st.rateStore req.userId now).1 = true →
        falsy req.userId = false →
        st.usageTracker (req.userId.getD "") < FREE_TRIAL_LIMIT →
        (geminiProxyV2 env st now req (Upstream.transportFail cause)).resp
            = ⟨500, RespBody.errMsg proxyErrMsg⟩ ∧
        (geminiProxyV2 env st now req (Upstream.transportFail cause)).state.usageTracker
            = st.usageTracker ∧
        (geminiProxyV2 env st now req (Upstream.transportFail cause)).calledUpstream
            = true) ∧
    (∀ (env : Env) (st : ServerState) (now : Nat) (req : SearchReq) (cause : String),
        (rateCheck apiLimiterV2 st.rateStore req.userId now).1 = true →
        falsy req.userId = false →
        st.usageTracker (req.userId.getD "") < FREE_TRIAL_LIMIT →
        missingQuery req.searchPayload = false →
        falsy env.SEARCH_API_KEY = false → falsy env.CX_ID = false →
        (searchProxy env st now req (Upstream.transportFail cause)).resp
            = ⟨500, RespBody.errMsg proxyErrMsg⟩ ∧
        (searchProxy env st now req (Upstream.transportFail cause)).state.usageTracker
            = st.usageTracker ∧
        (searchProxy env st now req (Upstream.transportFail cause)).calledUpstream
            = true) := by
  refine ⟨?_, ?_, ?_⟩
  · intro st now req cause hrc hid hq
    rcases req with ⟨uid?, pay⟩
    simp [geminiProxyV1, hrc, hid, Nat.not_le.mpr hq]
  · intro env st now req cause hrc hid hq
    rcases req with ⟨uid?, pay⟩
    simp [geminiProxyV2, usageAndAuthMiddleware_allow _ _ hid hq, hrc]
  · intro env st now req cause hrc hid hq hquery hcfg1 hcfg2
    rcases req with ⟨uid?, sp⟩
    simp [searchProxy, usageAndAuthMiddleware_allow _ _ hid hq, hrc, hquery,
      hcfg1, hcfg2]

/-- Witness for C6 at a concrete admitted request and transport failure. -/
theorem transportError_generic500_witness :
    (geminiProxyV1 initialState 0 ⟨some "u", some "p"⟩
        (Upstream.transportFail "ECONNRESET at TLSSocket")).resp
      = ⟨500, RespBody.errMsg proxyErrMsg⟩ ∧
    (geminiProxyV1 initialState 0 ⟨some "u", some "p"⟩
        (Upstream.transportFail "ECONNRESET at TLSSocket")).state.usageTracker
      = initialState.usageTracker ∧
    (geminiProxyV1 initialState 0 ⟨some "u", some "p"⟩
        (Upstream.transportFail "ECONNRESET at TLSSocket")).calledUpstream
      = true :=
  transportError_generic500.1 initialState 0 ⟨some "u", some "p"⟩
    "ECONNRESET at TLSSocket" (by decide) (by decide) (by decide)

/-- C10: for every admitted request whose upstream replies 2xx with a body
that does not parse as JSON, `apiResponse.json()` throws before the ok-test,
so each handler answers the generic 500 transport-error response and does
not increment the quota ledger. -/
theorem invalidJson_success_reclassified :
    (∀ (st : ServerState) (now : Nat) (req : GeminiReq) (s : Nat) (b : String),
        (rateCheck apiLimiterV1 st.rateStore req.userId now).1 = true →
        falsy req.userId = false →
        st.usageTracker (req.userId.getD "") < FREE_TRIAL_LIMIT →
        200 ≤ s ∧ s < 300 →
        (geminiProxyV1 st now req (Upstream.reply s false b)).resp
            = ⟨500, RespBody.errMsg proxyErrMsg⟩ ∧
        (geminiProxyV1 st now req (Upstream.reply s false b)).state.usageTracker
            = st.usageTracker ∧
        (geminiProxyV1 st now req (Upstream.reply s false b)).outcome
            = Outcome.transportError) ∧
    (∀ (env : Env) (st : ServerState) (now : Nat) (req : GeminiReq) (s : Nat) (b : String),
        (rateCheck apiLimiterV2 st.rateStore req.userId now).1 = true →
        falsy req.userId = false →
        st.usageTracker (req.userId.getD "") < FREE_TRIAL_LIMIT →
        200 ≤ s ∧ s < 300 →
        (geminiProxyV2 env st now req (Upstream.reply s false b)).resp
            = ⟨500, RespBody.errMsg proxyErrMsg⟩ ∧
        (geminiProxyV2 env st now req (Upstream.reply s false b)).state.usageTracker
            = st.usageTracker ∧
        (geminiProxyV2 env st now req (Upstream.reply s false b)).outcome
            = Outcome.transportError) ∧
    (∀ (env : Env) (st : ServerState) (now : Nat) (req : SearchReq) (s : Nat) (b : String),
        (rateCheck apiLimiterV2 st.rateStore req.userId now).1 = true →
        falsy req.userId = false →
        st.usageTracker (req.userId.getD "") < FREE_TRIAL_LIMIT →
        missingQuery req.searchPayload = false →
        falsy env.SEARCH_API_KEY = false → falsy env.CX_ID = false →
        200 ≤ s ∧ s < 300 →
        (searchProxy env st now req (Upstream.reply s false b)).resp
            = ⟨500, RespBody.errMsg proxyErrMsg⟩ ∧
        (searchProxy env st now req (Upstream.reply s false b)).state.usageTracker
            = st.usageTracker ∧
        (searchProxy env st now req (Upstream.reply s false b)).outcome
            = Outcome.transportError) := by
  refine ⟨?_, ?_, ?_⟩
  · intro st now req s b hrc hid hq h2xx
    rcases req with ⟨uid?, pay⟩
    simp [geminiProxyV1, hrc, hid, Nat.not_le.mpr hq]
  · intro env st now req s b hrc hid hq h2xx
    rcases req with ⟨uid?, pay⟩
    simp [geminiProxyV2, usageAndAuthMiddleware_allow _ _ hid hq, hrc]
  · intro env st now req s b hrc hid hq hquery hcfg1 hcfg2 h2xx
    rcases req with ⟨uid?, sp⟩
    simp [searchProxy, usageAndAuthMiddleware_allow _ _ hid hq, hrc, hquery,
      hcfg1, hcfg2]

/-- Witness for C10: upstream 200 with an unparsable body costs nothing and
returns the generic 500. -/
theorem invalidJson_success_reclassified_witness :
    (geminiProxyV1 initialState 0 ⟨some "u", some "p"⟩
        (Upstream.reply 200 false "<html>")).resp
      = ⟨500, RespBody.errMsg proxyErrMsg⟩ ∧
    (geminiProxyV1 initialState 0 ⟨some "u", some "p"⟩
        (Upstream.reply 200 false "<html>")).state.usageTracker
      = initialState.usageTracker ∧
    (geminiProxyV1 initialState 0 ⟨some "u", some "p"⟩
        (Upstream.reply 200 false "<html>")).outcome
      = Outcome.transportError :=
  invalidJson_success_reclassified.1 initialState 0 ⟨some "u", some "p"⟩ 200
    "<html>" (by decide) (by decide) (by decide) (by decide)

/-- Counterexample to C7 as stated: with `GEMINI_API_KEY` unset, an admitted
gemini request is still dispatched upstream — the gemini handler performs no
credential check before the call and returns no 500 configuration error. -/
theorem configCheck_counterexample :
    (geminiProxyV2 envNoGemini initialState 0 ⟨some "u", some "p"⟩ okReply).calledUpstream
      = true ∧
    ¬ (geminiProxyV2 envNoGemini initialState 0 ⟨some "u", some "p"⟩ okReply).resp
      = ⟨500, RespBody.errMsg configErrMsg⟩ := by
  decide

/-- C7 (amended): the search endpoint detects a missing `SEARCH_API_KEY` or
`CX_ID` before attempting the upstream call and answers a 500 configuration
error (distinct from the transport-error response); the gemini endpoint
performs no such check and dispatches the upstream call whatever the
environment, including when `GEMINI_API_KEY` is absent. -/
theorem configError_before_dispatch :
    (∀ (env : Env) (st : ServerState) (now : Nat) (req : SearchReq) (ub : Upstream),
        (rateCheck apiLimiterV2 st.rateStore req.userId now).1 = true →
        falsy req.userId = false →
        st.usageTracker (req.userId.getD "") < FREE_TRIAL_LIMIT →
        missingQuery req.searchPayload = false →
        (falsy env.SEARCH_API_KEY = true ∨ falsy env.CX_ID = true) →
        (searchProxy env st now req ub).resp = ⟨500, RespBody.errMsg configErrMsg⟩ ∧
        (searchProxy env st now req ub).calledUpstream = false ∧
        (searchProxy env st now req ub).state.usageTracker = st.usageTracker) ∧
    (⟨500, RespBody.errMsg configErrMsg⟩ : HttpResponse)
        ≠ ⟨500, RespBody.errMsg proxyErrMsg⟩ ∧
    (∀ (env : Env) (st : ServerState) (now : Nat) (req : GeminiReq) (ub : Upstream),
        (rateCheck apiLimiterV2 st.rateStore req.userId now).1 = true →
        falsy req.userId = false →
        st.usageTracker (req.userId.getD "") < FREE_TRIAL_LIMIT →
        (geminiProxyV2 env st now req ub).calledUpstream = true) := by
  refine ⟨?_, by decide, ?_⟩
  · intro env st now req ub hrc hid hq hquery hcfg
    rcases req with ⟨uid?, sp⟩
    simp [searchProxy, usageAndAuthMiddleware_allow _ _ hid hq, hrc, hquery, hcfg]
  · intro env st now req ub hrc hid hq
    rcases req with ⟨uid?, pay⟩
    cases ub with
    | transportFail c =>
      simp [geminiProxyV2, usageAndAuthMiddleware_allow _ _ hid hq, hrc]
    | reply s valid body =>
      by_cases hv : valid = false
      · simp [geminiProxyV2, usageAndAuthMiddleware_allow _ _ hid hq, hrc, hv]
      · by_cases hok : 200 ≤ s ∧ s < 300
        · simp [geminiProxyV2, usageAndAuthMiddleware_allow _ _ hid hq, hrc, hv, hok]
        · simp [geminiProxyV2, usageAndAuthMiddleware_allow _ _ hid hq, hrc, hv, hok]

/-- Witness for the amended C7: missing `SEARCH_API_KEY` yields the 500
configuration error without dispatch; missing `GEMINI_API_KEY` still
dispatches. -/
theorem configError_before_dispatch_witness :
    (searchProxy envNoSearch initialState 0 ⟨some "u", some ⟨some "cats", none⟩⟩
        okReply).resp = ⟨500, RespBody.errMsg configErrMsg⟩ ∧
    (searchProxy envNoSearch initialState 0 ⟨some "u", some ⟨some "cats", none⟩⟩
        okReply).calledUpstream = false ∧
    (geminiProxyV2 envNoGemini initialState 0 ⟨some "u", some "p"⟩
        okReply).calledUpstream = true :=
  ⟨(configError_before_dispatch.1 envNoSearch initialState 0
      ⟨some "u", some ⟨some "cats", none⟩⟩ okReply
      (by decide) (by decide) (by decide) (by decide) (by decide)).1,
    (configError_before_dispatch.1 envNoSearch initialState 0
      ⟨some "u", some ⟨some "cats", none⟩⟩ okReply
      (by decide) (by decide) (by decide) (by decide) (by decide)).2.1,
    configError_before_dispatch.2.2 envNoGemini initialState 0
      ⟨some "u", some "p"⟩ okReply (by decide) (by decide) (by decide)⟩

/-- Counterexample to C8 as stated: a search request with no `searchPayload`
from a quota-exhausted user is answered 429 (the middleware runs before the
query check), not 400. -/
theorem missingQuery_counterexample :
    (searchProxy env0 st20u8 0 ⟨some "u8", none⟩ okReply).resp
      = ⟨429, RespBody.errMsg quotaLimitMsg⟩ ∧
    ¬ (searchProxy env0 st20u8 0 ⟨some "u8", none⟩ okReply).resp.status = 400 := by
  decide

/-- C8 (amended): every search request that passes the rate-window and
identity/quota checks and whose `searchPayload` is absent or whose query is
absent or empty is answered 400, makes no upstream call and leaves the quota
ledger untouched. -/
theorem missingQuery_rejected (env : Env) (st : ServerState) (now : Nat)
    (req : SearchReq) (ub : Upstream)
    (hrc : (rateCheck apiLimiterV2 st.rateStore req.userId now).1 = true)
    (hid : falsy req.userId = false)
    (hq : st.usageTracker (req.userId.getD "") < FREE_TRIAL_LIMIT)
    (hquery : missingQuery req.searchPayload = true) :
    (searchProxy env st now req ub).resp = ⟨400, RespBody.errMsg missingQueryMsg⟩ ∧
    (searchProxy env st now req ub).calledUpstream = false ∧
    (searchProxy env st now req ub).state.usageTracker = st.usageTracker := by
  rcases req with ⟨uid?, sp⟩
  simp [searchProxy, usageAndAuthMiddleware_allow _ _ hid hq, hrc, hquery]

/-- Witness for the amended C8 at a concrete admitted request lacking a
searchPayload. -/
theorem missingQuery_rejected_witness :
    (searchProxy env0 initialState 0 ⟨some "u", none⟩ okReply).resp
      = ⟨400, RespBody.errMsg missingQueryMsg⟩ ∧
    (searchProxy env0 initialState 0 ⟨some "u", none⟩ okReply).calledUpstream = false ∧
    (searchProxy env0 initialState 0 ⟨some "u", none⟩ okReply).state.usageTracker
      = initialState.usageTracker :=
  missingQuery_rejected env0 initialState 0 ⟨some "u", none⟩ okReply
    (by decide) (by decide) (by decide) (by decide)

/-- C9: both limiter configurations enable standard rate-limit headers,
suppress legacy headers, and carry the rate-limit message; every
rate-limited response, on each endpoint of both variants, is 429 with that
message; and every quota-exhausted response is 429 with the quota message. -/
theorem limit_messages_and_headers :
    apiLimiterV1.message = RespBody.errMsg rateLimitMsg ∧
    apiLimiterV1.standardHeaders = true ∧
    apiLimiterV1.legacyHeaders = false ∧
    apiLimiterV2.message = RespBody.errMsg rateLimitMsg ∧
    apiLimiterV2.standardHeaders = true ∧
    apiLimiterV2.legacyHeaders = false ∧
    (∀ (st : ServerState) (e : GemEvent),
        (rateCheck apiLimiterV1 st.rateStore e.req.userId e.now).1 = false →
        (stepV1 st e).resp = ⟨429, RespBody.errMsg rateLimitMsg⟩) ∧
    (∀ (env : Env) (st : ServerState) (now : Nat) (req : GeminiReq) (ub : Upstream),
        (rateCheck apiLimiterV2 st.rateStore req.userId now).1 = false →
        (geminiProxyV2 env st now req ub).resp = ⟨429, RespBody.errMsg rateLimitMsg⟩) ∧
    (∀ (env : Env) (st : ServerState) (now : Nat) (req : SearchReq) (ub : Upstream),
        (rateCheck apiLimiterV2 st.rateStore req.userId now).1 = false →
        (searchProxy env st now req ub).resp = ⟨429, RespBody.errMsg rateLimitMsg⟩) ∧
    (∀ (st : ServerState) (now : Nat) (req : GeminiReq) (ub : Upstream),
        (rateCheck apiLimiterV1 st.rateStore req.userId now).1 = true →
        falsy req.userId = false →
        FREE_TRIAL_LIMIT ≤ st.usageTracker (req.userId.getD "") →
        (geminiProxyV1 st now req ub).resp = ⟨429, RespBody.errMsg quotaLimitMsg⟩) ∧
    (∀ (env : Env) (st : ServerState) (now : Nat) (req : GeminiReq) (ub : Upstream),
        (rateCheck apiLimiterV2 st.rateStore req.userId now).1 = true →
        falsy req.userId = false →
        FREE_TRIAL_LIMIT ≤ st.usageTracker (req.userId.getD "") →
        (geminiProxyV2 env st now req ub).resp = ⟨429, RespBody.errMsg quotaLimitMsg⟩) ∧
    (∀ (env : Env) (st : ServerState) (now : Nat) (req : SearchReq) (ub : Upstream),
        (rateCheck apiLimiterV2 st.rateStore req.userId now).1 = true →
        falsy req.userId = false →
        FREE_TRIAL_LIMIT ≤ st.usageTracker (req.userId.getD "") →
        (searchProxy env st now req ub).resp = ⟨429, RespBody.errMsg quotaLimitMsg⟩) := by
  refine ⟨rfl, rfl, rfl, rfl, rfl, rfl, ?_, ?_, ?_, ?_, ?_, ?_⟩
  · intro st e h
    exact (stepV1_rate_rejected st e h).1
  · intro env st now req ub h
    rcases req with ⟨uid?, pay⟩
    simp only [geminiProxyV2]
    rw [if_pos h]
    rfl
  · intro env st now req ub h
    rcases req with ⟨uid?, sp⟩
    simp only [searchProxy]
    rw [if_pos h]
    rfl
  · intro st now req ub hrc hid hq
    rcases req with ⟨uid?, pay⟩
    simp [geminiProxyV1, hrc, hid, hq]
  · intro env st now req ub hrc hid hq
    rcases req with ⟨uid?, pay⟩
    simp [geminiProxyV2, usageAndAuthMiddleware, hrc, hid, hq]
  · intro env st now req ub hrc hid hq
    rcases req with ⟨uid?, sp⟩
    simp [searchProxy, usageAndAuthMiddleware, hrc, hid, hq]

/-- Witness for C9: the 6th `"u2"` request in a full window gets the 429
rate-limit body, and a quota-exhausted user's request gets the 429 quota
body. -/
theorem limit_messages_and_headers_witness :
    (stepV1 stFullU2 (u2Event 1000)).resp = ⟨429, RespBody.errMsg rateLimitMsg⟩ ∧
    (geminiProxyV1 st20u8 0 ⟨some "u8", some "p"⟩ okReply).resp
      = ⟨429, RespBody.errMsg quotaLimitMsg⟩ :=
  ⟨limit_messages_and_headers.2.2.2.2.2.2.1 stFullU2 (u2Event 1000) (by decide),
    limit_messages_and_headers.2.2.2.2.2.2.2.2.2.1 st20u8 0 ⟨some "u8", some "p"⟩
      okReply (by decide) (by decide) (by decide)⟩

end GeminiToolbox
